import Mathlib

/-!
Verification of the `ddtpy` pipeline driver (`ddtpy/main.py`) against its
specification.  The driver `main` reads a JSON configuration, loads a
multi-epoch datacube, neutralizes NaN pixels, slices and rescales a single
wavelength plane, builds the model, runs an initial fit, and then refines the
per-epoch registration of the non-master final-reference epochs
(masking low-signal spaxels, skipping epochs with insufficient support, and
applying a movement cap).

Numbers are embedded as exact rationals (`ℚ`); a float datum that may be NaN
is embedded as `FVal`.  The collaborator modules imported by `main.py`
(`psf`, `model`, `data`, `adr`, `fitting`, `registration`) are not part of the
sources; they are kept abstract: every theorem below quantifies over them
(record `Collab`), or they are modelled from the spec where `main.py` relies
on their stored fields (`DDTData`, `DDTModel`).
-/

/-- A floating-point datum: either NaN or a numeric value.  Numeric values
are embedded as exact rationals. -/
inductive FVal where
  | nan : FVal
  | num : ℚ → FVal
deriving DecidableEq

/-- `np.isnan` on a single datum. -/
def FVal.isnan : FVal → Bool
  | .nan => true
  | .num _ => false

/-- Multiplication of a float datum by a (finite) scalar: NaN stays NaN. -/
def FVal.scale (c : ℚ) : FVal → FVal
  | .nan => .nan
  | .num q => .num (c * q)

/-- A 4-d array `[epoch][wavelength][y][x]` with explicit shape, as produced
by `read_dataset` (`data` and `weight` in `main.py`).  Entries outside the
shape are junk. -/
structure Cube4 (α : Type) where
  nt : Nat
  nw : Nat
  ny : Nat
  nx : Nat
  val : Nat → Nat → Nat → Nat → α

/-- numpy basic slicing `a[:, 200:201, :, :]` (main.py lines 57-58): the
wavelength axis is restricted to the clipped range `[min 200 nw, min 201 nw)`;
all other axes are kept. -/
def sliceWave {α : Type} (c : Cube4 α) : Cube4 α :=
  { c with nw := min 201 c.nw - min 200 c.nw,
           val := fun t w y x => c.val t (min 200 c.nw + w) y x }

/-- Elementwise map over a 4-d array. -/
def Cube4.map {α β : Type} (f : α → β) (c : Cube4 α) : Cube4 β :=
  { c with val := fun t w y x => f (c.val t w y x) }

/-- main.py line 57: `data = data[:, 200:201, :, :]*10**15`. -/
def sliceScaleData (data : Cube4 FVal) : Cube4 FVal :=
  (sliceWave data).map (FVal.scale ((10 : ℚ) ^ (15 : ℕ)))

/-- main.py line 58: `weight = weight[:, 200:201, :, :]*10**(-15*2)`
(the factor is exactly `10⁻³⁰`). -/
def sliceScaleWeight (weight : Cube4 ℚ) : Cube4 ℚ :=
  (sliceWave weight).map (fun q => q * (((10 : ℚ) ^ (30 : ℕ))⁻¹))

/-- main.py line 59: `wave = wave[200:201]`. -/
def sliceWaveList (wave : List ℚ) : List ℚ :=
  (wave.drop 200).take 1

/-- main.py lines 62-66:
`mask = np.isnan(data); data[mask] = 0.0; weight[mask] = 0.0`.
Every element at which `data` is NaN has its data value set to `0.0` and its
weight set to `0.0`; all other elements are untouched.  The operation is
total: NaN input raises no error. -/
def zeroNanData (data : Cube4 FVal) (weight : Cube4 ℚ) : Cube4 FVal × Cube4 ℚ :=
  ({ data with val := fun t w y x =>
       if (data.val t w y x).isnan then FVal.num 0 else data.val t w y x },
   { weight with val := fun t w y x =>
       if (data.val t w y x).isnan then 0 else weight.val t w y x })

/-- Modelled from the spec: the Datacube Store `DDTData` (its module `data.py`
is not among the sources).  Per spec section 3 it holds the observed
data/weight/wavelength arrays across epochs, the final-reference flags, the
master final-reference index, plus the header and the spaxel size, exactly as
passed by `main.py` line 68. -/
structure DData where
  data : Cube4 FVal
  weight : Cube4 ℚ
  wave : List ℚ
  is_final_ref : Nat → Bool
  master_final_ref : ℤ
  header : List (String × String)
  spaxel_size : ℚ

/-- Number of epochs `ddtdata.nt` (first axis of the data array). -/
def DData.nt (d : DData) : Nat := d.data.nt

/-- Wavelength-axis size `ddtdata.nw`. -/
def DData.nw (d : DData) : Nat := d.data.nw

/-- Spatial size `ddtdata.ny`. -/
def DData.ny (d : DData) : Nat := d.data.ny

/-- Spatial size `ddtdata.nx`. -/
def DData.nx (d : DData) : Nat := d.data.nx

/-- Modelled from the spec: the registration-offset state of `DDTModel`
(its module `model.py` is not among the sources).  Per spec section 3 the
model owns per-epoch sub-pixel registration offsets `data_xctr`, `data_yctr`,
initialized from `data_xctr_init`/`data_yctr_init` by the constructor
(main.py lines 131-136) and mutated only by the registration loop.  The
galaxy/sn/sky/psf parameters are not touched by the code under verification
and are absorbed into the abstract collaborator functions. -/
structure ModelState where
  data_xctr : Nat → ℚ
  data_yctr : Nat → ℚ

/-- numpy `np.min` of a 1-d list of values (`np.min(tmp_m)`, main.py
line 179).  numpy raises on an empty array; the `0` returned here for `[]` is
junk and never relied upon. -/
def npmin : List ℚ → ℚ
  | [] => 0
  | x :: xs => xs.foldl min x

/-- numpy `np.median`: the middle element of the sorted values for odd
length, the mean of the two middle elements for even length.  numpy returns
NaN (with a warning) on an empty array; the `0` returned here for `[]` is
junk and never relied upon. -/
def npmedian (l : List ℚ) : ℚ :=
  let s := List.insertionSort (fun a b : ℚ => a ≤ b) l
  let n := l.length
  if n = 0 then 0
  else if n % 2 = 1 then s.getD (n / 2) 0
  else (s.getD (n / 2 - 1) 0 + s.getD (n / 2) 0) / 2

/-- main.py line 147: maximum iterations handed to `fit_position`. -/
def maxiter_fit_position : Nat := 100

/-- main.py line 148: maximum movement allowed in `fit_position` (pixels). -/
def maxmove_fit_position : ℚ := 3

/-- main.py line 149: number of median absolute deviations above the minimum
spaxel value used by the registration mask (`2.5`). -/
def mask_nmad : ℚ := 5 / 2

/-- State threaded through the registration loop (main.py lines 152-208):
the Datacube Store (whose `weight` is mutated in place), the model (whose
`data_xctr`/`data_yctr` are updated), and the `include_in_fit` flags
(line 156). -/
structure RegState where
  ddt : DData
  model : ModelState
  include_in_fit : Nat → Bool

/-- `tmp_m` (main.py line 175): the model flux summed over wavelengths,
a 2-d spatial map.  `ev` is the abstract `model.evaluate` collaborator
(main.py lines 168-173; the coordinate grids `xcoords`/`ycoords` are
functions of the current model offsets and the fixed data shape, hence
absorbed into `ev`'s dependence on the model state and the epoch). -/
def epochFlux (ev : ModelState → Nat → Nat → Nat → Nat → ℚ)
    (s : RegState) (i_t y x : Nat) : ℚ :=
  ((List.range s.ddt.nw).map (fun w => ev s.model i_t w y x)).sum

/-- The flattened list of `tmp_m` values over the spatial grid, as numpy's
reductions (`np.min`, `np.median`) see it. -/
def epochEntries (ev : ModelState → Nat → Nat → Nat → Nat → ℚ)
    (s : RegState) (i_t : Nat) : List ℚ :=
  (List.range s.ddt.ny).flatMap
    (fun y => (List.range s.ddt.nx).map (fun x => epochFlux ev s i_t y x))

/-- `tmp_mad` (main.py line 176): `np.median(np.abs(tmp_m - np.median(tmp_m)))`. -/
def epochMAD (ev : ModelState → Nat → Nat → Nat → Nat → ℚ)
    (s : RegState) (i_t : Nat) : ℚ :=
  npmedian ((epochEntries ev s i_t).map
    (fun v => |v - npmedian (epochEntries ev s i_t)|))

/-- The masking threshold `np.min(tmp_m) + mask_nmad * tmp_mad`
(main.py line 179). -/
def epochThreshold (ev : ModelState → Nat → Nat → Nat → Nat → ℚ)
    (s : RegState) (i_t : Nat) : ℚ :=
  npmin (epochEntries ev s i_t) + mask_nmad * epochMAD ev s i_t

/-- `mask` (main.py line 179): `tmp_m > np.min(tmp_m) + mask_nmad * tmp_mad`,
true exactly on the spaxels whose summed model flux is strictly greater than
the threshold. -/
def epochMask (ev : ModelState → Nat → Nat → Nat → Nat → ℚ)
    (s : RegState) (i_t y x : Nat) : Bool :=
  decide (epochThreshold ev s i_t < epochFlux ev s i_t y x)

/-- `mask.sum()` (main.py line 183): the number of `True` spaxels. -/
def epochSupport (ev : ModelState → Nat → Nat → Nat → Nat → ℚ)
    (s : RegState) (i_t : Nat) : Nat :=
  ((List.range s.ddt.ny).map
    (fun y => ((List.range s.ddt.nx).filter
      (fun x => epochMask ev s i_t y x)).length)).sum

/-- main.py line 188:
`ddtdata.weight[i_t] = ddtdata.weight[i_t] * mask[None, :, :]` — the epoch's
weight plane is multiplied, at every wavelength, by the boolean mask
(`True ↦ 1`, `False ↦ 0`); the weights of every other epoch are untouched. -/
def maskWeight (ev : ModelState → Nat → Nat → Nat → Nat → ℚ)
    (s : RegState) (i_t : Nat) : DData :=
  let newval : Nat → Nat → Nat → Nat → ℚ := fun t w y x =>
    if t = i_t then
      s.ddt.weight.val t w y x * (if epochMask ev s i_t y x then 1 else 0)
    else s.ddt.weight.val t w y x
  { s.ddt with weight := { s.ddt.weight with val := newval } }

/-- One iteration of the registration loop, main.py lines 164-205, for epoch
`i_t`.  `fp` is the abstract `fit_position` collaborator
(`registration.py` is not among the sources): it receives the Datacube Store
with the masked weights, the model, the epoch and `maxiter`, and returns
`(pos, convergence)`.  The distance test at lines 199-201 computes
`math.sqrt(dx**2 + dy**2) < 3.0`; since both sides are non-negative this is
embedded as the equivalent comparison of the square with `3^2`. -/
def regEpochStep (ev : ModelState → Nat → Nat → Nat → Nat → ℚ)
    (fp : DData → ModelState → Nat → Nat → (ℚ × ℚ) × Bool)
    (data_xctr_init data_yctr_init : Nat → ℚ)
    (s : RegState) (i_t : Nat) : RegState :=
  -- lines 165-166: loop over just the final refs excluding the master
  if s.ddt.is_final_ref i_t = false ∨ (i_t : ℤ) = s.ddt.master_final_ref then s
  -- lines 183-184: fewer than 20 spaxels available, don't fit the position
  else if epochSupport ev s i_t < 20 then s
  else
    -- line 188
    let ddt2 := maskWeight ev s i_t
    -- lines 193-194
    let pc := fp ddt2 s.model i_t maxiter_fit_position
    let pos := pc.1
    -- lines 199-200 (squared distance, see above)
    let dist_sq := (pos.1 - data_xctr_init i_t) ^ 2 + (pos.2 - data_yctr_init i_t) ^ 2
    if dist_sq < maxmove_fit_position ^ 2 then
      -- lines 201-203: accept the fitted position
      { s with ddt := ddt2,
               model := { data_xctr := Function.update s.model.data_xctr i_t pos.1,
                          data_yctr := Function.update s.model.data_yctr i_t pos.2 } }
    else
      -- lines 204-205: cut the epoch from the next fitting step
      { s with ddt := ddt2,
               include_in_fit := Function.update s.include_in_fit i_t false }

/-- The registration loop body applied over a list of epoch indices
(the `for i_t in range(ddtdata.nt)` loop, main.py line 164). -/
def regLoop (ev : ModelState → Nat → Nat → Nat → Nat → ℚ)
    (fp : DData → ModelState → Nat → Nat → (ℚ × ℚ) × Bool)
    (data_xctr_init data_yctr_init : Nat → ℚ)
    (s : RegState) (l : List Nat) : RegState :=
  l.foldl (regEpochStep ev fp data_xctr_init data_yctr_init) s

/-- The state entering the registration loop: the Datacube Store and the
fitted model, with `include_in_fit = np.ones(nt, dtype=bool)`
(main.py line 156). -/
def regInit (ddt0 : DData) (model0 : ModelState) : RegState :=
  { ddt := ddt0, model := model0, include_in_fit := fun _ => true }

/-- The whole registration stage, main.py lines 152-208: snapshot the weights
(`weight_orig = ddtdata.weight.copy()`, line 154), run the loop over all
epochs, and restore the weights (`ddtdata.weight = weight_orig`, line 208). -/
def regStage (ev : ModelState → Nat → Nat → Nat → Nat → ℚ)
    (fp : DData → ModelState → Nat → Nat → (ℚ × ℚ) × Bool)
    (data_xctr_init data_yctr_init : Nat → ℚ)
    (ddt0 : DData) (model0 : ModelState) : RegState :=
  let weight_orig := ddt0.weight
  let s := regLoop ev fp data_xctr_init data_yctr_init
    (regInit ddt0 model0) (List.range ddt0.nt)
  { s with ddt := { s.ddt with weight := weight_orig } }

/-- The JSON configuration mapping read by `main` (main.py line 30).  Keys
read with `conf.get(...)` are optional (`Option`); keys read with
`conf["..."]` are required.  `PARAM_IS_FINAL_REF` is read with `.get` in the
source; an absent key would make the later per-epoch indexing fail, so only
the present case is meaningful. -/
structure Conf where
  FLAG_APODIZER : Option ℤ
  PARAM_SPAXEL_SIZE : ℚ
  PARAM_LAMBDA_REF : Option ℚ
  PARAM_FINAL_REF : ℤ
  PARAM_IS_FINAL_REF : Option (List Bool)
  N_ITER_GALAXY_PRIOR : Option ℤ
  IN_CUBE : List String
  PARAM_PSF_TYPE : String
  PARAM_PSF_ES : List (List ℚ)
  PARAM_AIRMASS : List ℚ
  PARAM_P : Option (List ℚ)
  PARAM_T : Option (List ℚ)
  PARAM_H : Option (List ℚ)
  PARAM_HA : List ℚ
  PARAM_DEC : List ℚ
  PARAM_MLA_TILT : ℚ
  MU_GALAXY_XY_PRIOR : ℚ
  MU_GALAXY_LAMBDA_PRIOR : ℚ
  PARAM_TARGET_XP : Option (List ℚ)
  PARAM_TARGET_YP : Option (List ℚ)

/-- main.py line 39: `wave_ref = conf.get("PARAM_LAMBDA_REF", 5000.)` — the
reference wavelength, defaulting to `5000.0` when the key is absent. -/
def wave_ref (conf : Conf) : ℚ :=
  conf.PARAM_LAMBDA_REF.getD 5000

/-- main.py lines 121-124: the initial per-epoch x registration offsets —
the configured `PARAM_TARGET_XP` values when the key is present,
`np.zeros(ddtdata.nt)` otherwise. -/
def data_xctr_init (conf : Conf) (nt : Nat) : Nat → ℚ :=
  match conf.PARAM_TARGET_XP with
  | some xs => fun i => xs.getD i 0
  | none => fun _ => 0

/-- main.py lines 125-128: the initial per-epoch y registration offsets —
the configured `PARAM_TARGET_YP` values when the key is present,
`np.zeros(ddtdata.nt)` otherwise. -/
def data_yctr_init (conf : Conf) (nt : Nat) : Nat → ℚ :=
  match conf.PARAM_TARGET_YP with
  | some ys => fun i => ys.getD i 0
  | none => fun _ => 0

/-- The collaborator functions imported by main.py from the sibling modules
(`data`, `psf`, `adr`, `fitting`, `model`, `registration`), none of which are
among the sources, plus the float transcendental functions used at
lines 103-104 and 112-113.  All theorems about `mainRun` quantify over this
record, so nothing is assumed about the collaborators' behaviour. -/
structure Collab where
  read_dataset : List String → Cube4 FVal × Cube4 ℚ × List ℚ
  read_select_header_keys : String → List (String × String)
  params_from_gs : List (List ℚ) → List ℚ → ℚ → (Nat → Nat → ℚ) × (Nat → Nat → ℚ)
  differential_refraction : List ℚ → List ℚ → List ℚ → List ℚ → List ℚ → ℚ → Nat → Nat → ℚ
  calc_paralactic_angle : List ℚ → List ℚ → List ℚ → ℚ → Nat → ℚ
  guess_sky : DData → ℚ → Nat → Nat → ℚ
  fit_model_all_epoch : ModelState → DData → ModelState
  evaluate : ModelState → Nat → Nat → Nat → Nat → ℚ
  fit_position : DData → ModelState → Nat → Nat → (ℚ × ℚ) × Bool
  deg2rad : ℚ → ℚ
  sin : ℚ → ℚ
  cos : ℚ → ℚ

/-- The intermediate values of the run that later stages consume. -/
structure Setup where
  wave_ref : ℚ
  master_final_ref : ℤ
  ddtdata : DData
  data_xctr_init : Nat → ℚ
  data_yctr_init : Nat → ℚ

/-- The final state of a completed run of `main`: the recorded setup, the
model state after the initial all-epoch fit (line 142), and the state after
the registration stage (lines 152-208). -/
structure MainOutcome where
  setup : Setup
  fitted_model : ModelState
  reg : RegState

/-- The driver `main` (main.py lines 20-208), minus the JSON file I/O of
lines 29-30: the configuration arrives already parsed as `conf` and a fatal
`raise` is embedded as `Except.error` with the raised message.  The line 55
debugging `print` has no effect on the state and is omitted. -/
def mainRun (c : Collab) (conf : Conf) : Except String MainOutcome :=
  -- lines 32-34: the apodizer flag is checked first because the code does
  -- not support it
  if 2 ≤ conf.FLAG_APODIZER.getD 0 then
    Except.error "FLAG_APODIZER >= 2 not implemented"
  else
    let spaxel_size := conf.PARAM_SPAXEL_SIZE
    -- line 39
    let wr := wave_ref conf
    -- line 42: subtract 1 due to Python zero-indexing
    let master_final_ref : ℤ := conf.PARAM_FINAL_REF - 1
    -- line 45
    let is_final_ref : List Bool := conf.PARAM_IS_FINAL_REF.getD []
    -- line 47 (read and not consumed afterwards)
    let n_iter_galaxy_prior := conf.N_ITER_GALAXY_PRIOR
    -- lines 50-51: load the header from the final ref or first cube
    let i : ℤ := if 0 ≤ master_final_ref then master_final_ref else 0
    let header := c.read_select_header_keys (conf.IN_CUBE.getD i.toNat "")
    -- line 54: load data from the list of FITS files
    let dsw := c.read_dataset conf.IN_CUBE
    -- lines 57-59: keep only wavelength slice 200:201 and rescale
    let data := sliceScaleData dsw.1
    let weight := sliceScaleWeight dsw.2.1
    let wave := sliceWaveList dsw.2.2
    -- lines 62-66: zero-weight array elements that are NaN
    let dw := zeroNanData data weight
    -- lines 68-69
    let ddtdata : DData :=
      { data := dw.1, weight := dw.2, wave := wave,
        is_final_ref := fun j => is_final_ref.getD j false,
        master_final_ref := master_final_ref,
        header := header, spaxel_size := spaxel_size }
    -- lines 80-87
    if conf.PARAM_PSF_TYPE = "GS-PSF" then
      let es_psf_params := conf.PARAM_PSF_ES
      let pp := c.params_from_gs es_psf_params ddtdata.wave wr
      -- lines 97-100: atmospheric conditions at each observation time
      let airmass := conf.PARAM_AIRMASS
      let p := conf.PARAM_P.getD (airmass.map (fun _ => 615))
      let t := conf.PARAM_T.getD (airmass.map (fun _ => 2))
      let h := conf.PARAM_H.getD (airmass.map (fun _ => 0))
      -- lines 103-105: config files in degrees
      let ha := conf.PARAM_HA.map c.deg2rad
      let dec := conf.PARAM_DEC.map c.deg2rad
      let tilt := conf.PARAM_MLA_TILT
      -- lines 109-113: differential refraction in spaxels, ADR offsets
      let delta_r := fun it iw =>
        c.differential_refraction airmass p t h ddtdata.wave wr it iw / spaxel_size
      let paralactic_angle := c.calc_paralactic_angle airmass ha dec tilt
      let adr_dx := fun it iw => -(delta_r it iw) * c.sin (paralactic_angle it)
      let adr_dy := fun it iw => delta_r it iw * c.cos (paralactic_angle it)
      -- line 116: first guess at the sky level
      let skyguess := c.guess_sky ddtdata 2
      -- lines 121-128
      let xctr_init := data_xctr_init conf ddtdata.nt
      let yctr_init := data_yctr_init conf ddtdata.nt
      -- lines 131-136: initialize the model (offsets start at the initial
      -- target positions; the other constructor arguments are parameters the
      -- registration code never reads back)
      let model : ModelState := { data_xctr := xctr_init, data_yctr := yctr_init }
      -- line 142: initial fit holding position constant
      let model1 := c.fit_model_all_epoch model ddtdata
      -- lines 147-208: fit registration on just the final refs
      let reg := regStage c.evaluate c.fit_position xctr_init yctr_init ddtdata model1
      Except.ok { setup := { wave_ref := wr, master_final_ref := master_final_ref,
                             ddtdata := ddtdata,
                             data_xctr_init := xctr_init, data_yctr_init := yctr_init },
                  fitted_model := model1, reg := reg }
    else if conf.PARAM_PSF_TYPE = "G-PSF" then
      Except.error "G-PSF (from FITS files) not implemented"
    else
      Except.error "unrecognized PARAM_PSF_TYPE"

/-- A minimal concrete configuration used to instantiate the theorems on
concrete inputs. -/
def confGood : Conf :=
  { FLAG_APODIZER := none, PARAM_SPAXEL_SIZE := 1, PARAM_LAMBDA_REF := none,
    PARAM_FINAL_REF := 1, PARAM_IS_FINAL_REF := some [true],
    N_ITER_GALAXY_PRIOR := none, IN_CUBE := ["cube0"],
    PARAM_PSF_TYPE := "GS-PSF", PARAM_PSF_ES := [[1]],
    PARAM_AIRMASS := [1], PARAM_P := none, PARAM_T := none, PARAM_H := none,
    PARAM_HA := [0], PARAM_DEC := [0], PARAM_MLA_TILT := 0,
    MU_GALAXY_XY_PRIOR := 1, MU_GALAXY_LAMBDA_PRIOR := 1,
    PARAM_TARGET_XP := none, PARAM_TARGET_YP := none }

/-- `confGood` with an explicit reference wavelength. -/
def confLam : Conf := { confGood with PARAM_LAMBDA_REF := some 7 }

/-- `confGood` with an unsupported apodizer mode. -/
def confApodBad : Conf := { confGood with FLAG_APODIZER := some 5 }

/-- `confGood` with an unrecognized PSF type. -/
def confPsfBad : Conf := { confGood with PARAM_PSF_TYPE := "X-PSF" }

/-- `confGood` with explicit per-epoch target positions. -/
def confTargets : Conf :=
  { confGood with PARAM_TARGET_XP := some [3, 4], PARAM_TARGET_YP := some [5, 6] }

/-- A concrete instantiation of the collaborator record (constant stubs). -/
def collabC : Collab :=
  { read_dataset := fun _ =>
      (⟨1, 250, 1, 1, fun _ _ _ _ => FVal.num 1⟩, ⟨1, 250, 1, 1, fun _ _ _ _ => 1⟩,
       List.replicate 250 1),
    read_select_header_keys := fun _ => [],
    params_from_gs := fun _ _ _ => (fun _ _ => 1, fun _ _ => 1),
    differential_refraction := fun _ _ _ _ _ _ _ _ => 0,
    calc_paralactic_angle := fun _ _ _ _ _ => 0,
    guess_sky := fun _ _ _ _ => 0,
    fit_model_all_epoch := fun m _ => m,
    evaluate := fun _ _ _ _ _ => 1,
    fit_position := fun _ _ _ _ => ((0, 0), true),
    deg2rad := fun q => q, sin := fun _ => 0, cos := fun _ => 1 }

/-- The registration-loop state just before epoch `j`'s iteration: the loop
body applied to the epochs `0, …, j-1` starting from the initial state. -/
def regBefore (ev : ModelState → Nat → Nat → Nat → Nat → ℚ)
    (fp : DData → ModelState → Nat → Nat → (ℚ × ℚ) × Bool)
    (data_xctr_init data_yctr_init : Nat → ℚ)
    (ddt0 : DData) (model0 : ModelState) (j : Nat) : RegState :=
  regLoop ev fp data_xctr_init data_yctr_init (regInit ddt0 model0) (List.range j)

/-- A concrete data cube holding a NaN at the origin. -/
def cubeNaN : Cube4 FVal :=
  ⟨1, 1, 1, 1, fun t w y x => if t = 0 ∧ w = 0 ∧ y = 0 ∧ x = 0 then FVal.nan else FVal.num 4⟩

/-- A concrete all-fives weight cube. -/
def cubeW5 : Cube4 ℚ := ⟨1, 1, 1, 1, fun _ _ _ _ => 5⟩

/-- A concrete wavelength list of length 250. -/
def waveC : List ℚ := List.replicate 250 1

/-- The zero function, used as concrete initial offsets. -/
def zeroQ : Nat → ℚ := fun _ => 0

/-- A concrete model state with zero offsets. -/
def modelC : ModelState := { data_xctr := zeroQ, data_yctr := zeroQ }

/-- A concrete `fit_position` stub returning the origin. -/
def fpZero : DData → ModelState → Nat → Nat → (ℚ × ℚ) × Bool :=
  fun _ _ _ _ => ((0, 0), true)

/-- A concrete `fit_position` stub returning a far-away position. -/
def fpFar : DData → ModelState → Nat → Nat → (ℚ × ℚ) × Bool :=
  fun _ _ _ _ => ((10, 0), true)

/-- A concrete `evaluate` stub returning constant flux 1. -/
def evOne : ModelState → Nat → Nat → Nat → Nat → ℚ := fun _ _ _ _ _ => 1

/-- A concrete `evaluate` stub over a 3 × 7 spatial grid: flux `0` at the
spaxel `(0,0)` and flux `1` everywhere else. -/
def evGrid : ModelState → Nat → Nat → Nat → Nat → ℚ :=
  fun _ _ _ y x => if y = 0 ∧ x = 0 then 0 else 1

/-- A concrete single-epoch Datacube Store with a 1 × 1 spatial grid, whose
only epoch is a non-master final reference. -/
def ddtTiny : DData :=
  { data := ⟨1, 1, 1, 1, fun _ _ _ _ => FVal.num 1⟩,
    weight := ⟨1, 1, 1, 1, fun _ _ _ _ => 1⟩, wave := [1],
    is_final_ref := fun _ => true, master_final_ref := -1,
    header := [], spaxel_size := 1 }

/-- A concrete single-epoch Datacube Store with a 3 × 7 spatial grid and
all-ones weights, whose only epoch is a non-master final reference. -/
def ddtGrid : DData :=
  { data := ⟨1, 1, 3, 7, fun _ _ _ _ => FVal.num 1⟩,
    weight := ⟨1, 1, 3, 7, fun _ _ _ _ => 1⟩, wave := [1],
    is_final_ref := fun _ => true, master_final_ref := -1,
    header := [], spaxel_size := 1 }

/-- `ddtGrid` with the master final reference set to epoch 0. -/
def ddtMaster : DData := { ddtGrid with master_final_ref := 0 }

/-- The registration state on `ddtGrid` at the start of the loop. -/
def sGrid : RegState := regInit ddtGrid modelC

/-- C5: every array element at which the input data is NaN is neutralized
before fitting — its data value becomes `0.0` and its weight becomes `0.0` —
while every element at which the data is not NaN keeps its original data and
weight; the operation is total, so no error is raised for NaN input
(main.py lines 62-66; `zeroNanData` is applied by `mainRun` before any
fitting). -/
theorem c5_nan_neutralized (data : Cube4 FVal) (weight : Cube4 ℚ) (t w y x : Nat) :
    ((data.val t w y x).isnan = true →
      (zeroNanData data weight).1.val t w y x = FVal.num 0 ∧
      (zeroNanData data weight).2.val t w y x = 0) ∧
    ((data.val t w y x).isnan = false →
      (zeroNanData data weight).1.val t w y x = data.val t w y x ∧
      (zeroNanData data weight).2.val t w y x = weight.val t w y x) := by
  constructor <;> intro h <;> simp [zeroNanData, h]

/-- Witness for C5 at a concrete NaN element and a concrete non-NaN element. -/
theorem c5_nan_neutralized_witness :
    ((zeroNanData cubeNaN cubeW5).1.val 0 0 0 0 = FVal.num 0 ∧
      (zeroNanData cubeNaN cubeW5).2.val 0 0 0 0 = 0) ∧
    ((zeroNanData cubeNaN cubeW5).1.val 0 0 0 1 = cubeNaN.val 0 0 0 1 ∧
      (zeroNanData cubeNaN cubeW5).2.val 0 0 0 1 = cubeW5.val 0 0 0 1) :=
  ⟨(c5_nan_neutralized cubeNaN cubeW5 0 0 0 0).1 rfl,
   (c5_nan_neutralized cubeNaN cubeW5 0 0 0 1).2 rfl⟩

/-- C9: `main` does not fit the full datacube — before constructing `DDTData`
it keeps only the wavelength slice at index 200 (wavelength axis of
length 1), multiplies the data by `10^15` and the weight by `10^-30`, and
keeps only the corresponding single wavelength value (main.py lines 57-59;
the hypotheses say the input cube has a slice at index 200). -/
theorem c9_single_slice (data : Cube4 FVal) (weight : Cube4 ℚ) (wave : List ℚ)
    (hd : 200 < data.nw) (hw : 200 < weight.nw) (hv : 200 < wave.length) :
    (sliceScaleData data).nw = 1 ∧
    (∀ t y x, (sliceScaleData data).val t 0 y x =
      FVal.scale ((10 : ℚ) ^ (15 : ℕ)) (data.val t 200 y x)) ∧
    (sliceScaleWeight weight).nw = 1 ∧
    (∀ t y x, (sliceScaleWeight weight).val t 0 y x =
      weight.val t 200 y x * (((10 : ℚ) ^ (30 : ℕ))⁻¹)) ∧
    (sliceWaveList wave).length = 1 ∧
    (sliceWaveList wave).getD 0 0 = wave.getD 200 0 := by
  have h200d : min 200 data.nw = 200 := Nat.min_eq_left (Nat.le_of_lt hd)
  have h200w : min 200 weight.nw = 200 := Nat.min_eq_left (Nat.le_of_lt hw)
  refine ⟨?_, ?_, ?_, ?_, ?_, ?_⟩
  · simp only [sliceScaleData, Cube4.map, sliceWave]
    omega
  · intro t y x
    simp only [sliceScaleData, Cube4.map, sliceWave, h200d, Nat.add_zero]
  · simp only [sliceScaleWeight, Cube4.map, sliceWave]
    omega
  · intro t y x
    simp only [sliceScaleWeight, Cube4.map, sliceWave, h200w, Nat.add_zero]
  · simp only [sliceWaveList, List.length_take, List.length_drop]
    omega
  · simp only [sliceWaveList, List.getD_eq_getElem?_getD, List.getElem?_take,
      List.getElem?_drop]
    norm_num

/-- Witness for C9 on a concrete 250-wavelength dataset. -/
theorem c9_single_slice_witness :
    (sliceScaleData (collabC.read_dataset confGood.IN_CUBE).1).nw = 1 ∧
    (sliceScaleWeight (collabC.read_dataset confGood.IN_CUBE).2.1).nw = 1 ∧
    (sliceWaveList waveC).length = 1 ∧
    (sliceWaveList waveC).getD 0 0 = waveC.getD 200 0 := by
  have h := c9_single_slice (collabC.read_dataset confGood.IN_CUBE).1
    (collabC.read_dataset confGood.IN_CUBE).2.1 waveC
    (by norm_num [collabC]) (by norm_num [collabC]) (by norm_num [waveC])
  exact ⟨h.1, h.2.2.1, h.2.2.2.2.1, h.2.2.2.2.2⟩

/-- C10: when `PARAM_TARGET_XP` (resp. `PARAM_TARGET_YP`) is absent, the
initial per-epoch registration offsets handed to the model constructor are
zero for every epoch; when present, the configured per-epoch values are used
(main.py lines 121-128).  The last conjunct checks the values recorded by a
successful run of `main`, for any collaborators. -/
theorem c10_target_position_defaults (conf : Conf) (nt : Nat) (c : Collab) :
    (conf.PARAM_TARGET_XP = none → ∀ i, data_xctr_init conf nt i = 0) ∧
    (∀ xs, conf.PARAM_TARGET_XP = some xs → ∀ i, data_xctr_init conf nt i = xs.getD i 0) ∧
    (conf.PARAM_TARGET_YP = none → ∀ i, data_yctr_init conf nt i = 0) ∧
    (∀ ys, conf.PARAM_TARGET_YP = some ys → ∀ i, data_yctr_init conf nt i = ys.getD i 0) ∧
    (¬ 2 ≤ conf.FLAG_APODIZER.getD 0 → conf.PARAM_PSF_TYPE = "GS-PSF" →
      (mainRun c conf).map (fun o => (o.setup.data_xctr_init, o.setup.data_yctr_init)) =
        Except.ok (data_xctr_init conf (c.read_dataset conf.IN_CUBE).1.nt,
                   data_yctr_init conf (c.read_dataset conf.IN_CUBE).1.nt)) := by
  refine ⟨?_, ?_, ?_, ?_, ?_⟩
  · intro h i; simp [data_xctr_init, h]
  · intro xs h i; simp [data_xctr_init, h]
  · intro h i; simp [data_yctr_init, h]
  · intro ys h i; simp [data_yctr_init, h]
  · intro h1 h2
    simp [mainRun, h1, h2, Except.map, DData.nt, zeroNanData, sliceScaleData,
      sliceWave, Cube4.map]

/-- Witness for C10: zero offsets when the keys are absent, configured values
when present, and the recorded values of a concrete successful run. -/
theorem c10_target_position_defaults_witness :
    data_xctr_init confGood 1 0 = 0 ∧ data_yctr_init confGood 1 0 = 0 ∧
    data_xctr_init confTargets 1 1 = [(3 : ℚ), 4].getD 1 0 ∧
    data_yctr_init confTargets 1 0 = [(5 : ℚ), 6].getD 0 0 ∧
    (mainRun collabC confGood).map
        (fun o => (o.setup.data_xctr_init, o.setup.data_yctr_init)) =
      Except.ok (data_xctr_init confGood (collabC.read_dataset confGood.IN_CUBE).1.nt,
                 data_yctr_init confGood (collabC.read_dataset confGood.IN_CUBE).1.nt) :=
  ⟨(c10_target_position_defaults confGood 1 collabC).1 rfl 0,
   (c10_target_position_defaults confGood 1 collabC).2.2.1 rfl 0,
   (c10_target_position_defaults confTargets 1 collabC).2.1 [3, 4] rfl 1,
   (c10_target_position_defaults confTargets 1 collabC).2.2.2.1 [5, 6] rfl 0,
   (c10_target_position_defaults confGood 1 collabC).2.2.2.2 (by decide) rfl⟩

/-- C8: the reference wavelength is `conf.get("PARAM_LAMBDA_REF", 5000.)` —
the documented default `5000.0` when the key is absent and the configured
value otherwise (main.py line 39); `mainRun` passes exactly `wave_ref conf`
to `params_from_gs` and to `differential_refraction`, and the last conjunct
checks the value recorded by a successful run, for any collaborators. -/
theorem c8_wave_ref_default (conf : Conf) (c : Collab) :
    (conf.PARAM_LAMBDA_REF = none → wave_ref conf = 5000) ∧
    (∀ v, conf.PARAM_LAMBDA_REF = some v → wave_ref conf = v) ∧
    (¬ 2 ≤ conf.FLAG_APODIZER.getD 0 → conf.PARAM_PSF_TYPE = "GS-PSF" →
      (mainRun c conf).map (fun o => o.setup.wave_ref) = Except.ok (wave_ref conf)) := by
  refine ⟨?_, ?_, ?_⟩
  · intro h; simp [wave_ref, h]
  · intro v h; simp [wave_ref, h]
  · intro h1 h2
    simp [mainRun, h1, h2, Except.map]

/-- Witness for C8: default `5000` when absent, configured `7` when present,
and the recorded value of a concrete successful run. -/
theorem c8_wave_ref_default_witness :
    wave_ref confGood = 5000 ∧ wave_ref confLam = 7 ∧
    (mainRun collabC confGood).map (fun o => o.setup.wave_ref) =
      Except.ok (wave_ref confGood) :=
  ⟨(c8_wave_ref_default confGood collabC).1 rfl,
   (c8_wave_ref_default confLam collabC).2.1 7 rfl,
   (c8_wave_ref_default confGood collabC).2.2 (by decide) rfl⟩

/-- C7: for an unsupported apodizer mode (`FLAG_APODIZER >= 2`) or a PSF type
other than the supported `"GS-PSF"`, `main` raises a fatal error, and the
result does not depend on any collaborator — in particular neither
`fit_model_all_epoch` nor `fit_position` influences the outcome, so no
fitting or registration is performed (main.py lines 32-34 and 80-87). -/
theorem c7_config_errors (c : Collab) (conf : Conf)
    (h : 2 ≤ conf.FLAG_APODIZER.getD 0 ∨ conf.PARAM_PSF_TYPE ≠ "GS-PSF") :
    (∃ msg, mainRun c conf = Except.error msg) ∧
    ∀ c2 : Collab, mainRun c2 conf = mainRun c conf := by
  by_cases hap : 2 ≤ conf.FLAG_APODIZER.getD 0
  · exact ⟨⟨"FLAG_APODIZER >= 2 not implemented", by simp [mainRun, hap]⟩,
      fun c2 => by simp [mainRun, hap]⟩
  · have hps : conf.PARAM_PSF_TYPE ≠ "GS-PSF" := h.resolve_left hap
    by_cases hg : conf.PARAM_PSF_TYPE = "G-PSF"
    · exact ⟨⟨"G-PSF (from FITS files) not implemented",
        by simp [mainRun, hap, hps, hg]⟩,
        fun c2 => by simp [mainRun, hap, hps, hg]⟩
    · exact ⟨⟨"unrecognized PARAM_PSF_TYPE", by simp [mainRun, hap, hps, hg]⟩,
        fun c2 => by simp [mainRun, hap, hps, hg]⟩

/-- Witness for C7 at a concrete bad-apodizer configuration and a concrete
bad-PSF-type configuration. -/
theorem c7_config_errors_witness :
    (∃ msg, mainRun collabC confApodBad = Except.error msg) ∧
    (∃ msg, mainRun collabC confPsfBad = Except.error msg) :=
  ⟨(c7_config_errors collabC confApodBad (Or.inl (by decide))).1,
   (c7_config_errors collabC confPsfBad (Or.inr (by decide))).1⟩

/-- The registration-loop body never modifies the model offsets, the
inclusion flag, or the weights of an epoch other than the one it processes,
and it leaves every non-weight field of the Datacube Store unchanged. -/
theorem regEpochStep_other (ev : ModelState → Nat → Nat → Nat → Nat → ℚ)
    (fp : DData → ModelState → Nat → Nat → (ℚ × ℚ) × Bool)
    (xi yi : Nat → ℚ) (s : RegState) (i t : Nat) (h : t ≠ i) :
    (regEpochStep ev fp xi yi s i).model.data_xctr t = s.model.data_xctr t ∧
    (regEpochStep ev fp xi yi s i).model.data_yctr t = s.model.data_yctr t ∧
    (regEpochStep ev fp xi yi s i).include_in_fit t = s.include_in_fit t ∧
    ∀ w y x, (regEpochStep ev fp xi yi s i).ddt.weight.val t w y x =
      s.ddt.weight.val t w y x := by
  simp only [regEpochStep]
  split
  · exact ⟨rfl, rfl, rfl, fun w y x => rfl⟩
  split
  · exact ⟨rfl, rfl, rfl, fun w y x => rfl⟩
  split
  · exact ⟨Function.update_noteq h _ _, Function.update_noteq h _ _, rfl,
      fun w y x => by simp [maskWeight, h]⟩
  · exact ⟨rfl, rfl, Function.update_noteq h _ _,
      fun w y x => by simp [maskWeight, h]⟩

/-- The registration-loop body preserves the final-reference flags and the
master final-reference index of the Datacube Store. -/
theorem regEpochStep_flags (ev : ModelState → Nat → Nat → Nat → Nat → ℚ)
    (fp : DData → ModelState → Nat → Nat → (ℚ × ℚ) × Bool)
    (xi yi : Nat → ℚ) (s : RegState) (i : Nat) :
    (regEpochStep ev fp xi yi s i).ddt.is_final_ref = s.ddt.is_final_ref ∧
    (regEpochStep ev fp xi yi s i).ddt.master_final_ref = s.ddt.master_final_ref := by
  simp only [regEpochStep]
  split
  · exact ⟨rfl, rfl⟩
  split
  · exact ⟨rfl, rfl⟩
  split
  · exact ⟨rfl, rfl⟩
  · exact ⟨rfl, rfl⟩

/-- The loop body skips an epoch that is not a final reference or is the
master final reference (main.py lines 165-166). -/
theorem regEpochStep_skip_guard (ev : ModelState → Nat → Nat → Nat → Nat → ℚ)
    (fp : DData → ModelState → Nat → Nat → (ℚ × ℚ) × Bool)
    (xi yi : Nat → ℚ) (s : RegState) (i : Nat)
    (h : s.ddt.is_final_ref i = false ∨ (i : ℤ) = s.ddt.master_final_ref) :
    regEpochStep ev fp xi yi s i = s := by
  simp only [regEpochStep]
  rw [if_pos h]

/-- The loop body skips an epoch with fewer than 20 unmasked spaxels
(main.py lines 183-184). -/
theorem regEpochStep_skip_support (ev : ModelState → Nat → Nat → Nat → Nat → ℚ)
    (fp : DData → ModelState → Nat → Nat → (ℚ × ℚ) × Bool)
    (xi yi : Nat → ℚ) (s : RegState) (i : Nat)
    (hg : ¬ (s.ddt.is_final_ref i = false ∨ (i : ℤ) = s.ddt.master_final_ref))
    (hs : epochSupport ev s i < 20) :
    regEpochStep ev fp xi yi s i = s := by
  simp only [regEpochStep]
  rw [if_neg hg, if_pos hs]

/-- Applied over any list of epochs not containing `t`, the registration
loop preserves epoch `t`'s model offsets, inclusion flag and weights. -/
theorem regLoop_other (ev : ModelState → Nat → Nat → Nat → Nat → ℚ)
    (fp : DData → ModelState → Nat → Nat → (ℚ × ℚ) × Bool)
    (xi yi : Nat → ℚ) (t : Nat) (l : List Nat) (h : t ∉ l) :
    ∀ s : RegState,
    (regLoop ev fp xi yi s l).model.data_xctr t = s.model.data_xctr t ∧
    (regLoop ev fp xi yi s l).model.data_yctr t = s.model.data_yctr t ∧
    (regLoop ev fp xi yi s l).include_in_fit t = s.include_in_fit t ∧
    ∀ w y x, (regLoop ev fp xi yi s l).ddt.weight.val t w y x =
      s.ddt.weight.val t w y x := by
  induction l with
  | nil => exact fun s => ⟨rfl, rfl, rfl, fun w y x => rfl⟩
  | cons i l ih =>
    intro s
    have hti : t ≠ i := fun he => h (he ▸ List.mem_cons_self i l)
    have htl : t ∉ l := fun hm => h (List.mem_cons_of_mem i hm)
    have hstep := regEpochStep_other ev fp xi yi s i t hti
    have hrest := ih htl (regEpochStep ev fp xi yi s i)
    refine ⟨?_, ?_, ?_, ?_⟩
    · exact hrest.1.trans hstep.1
    · exact hrest.2.1.trans hstep.2.1
    · exact hrest.2.2.1.trans hstep.2.2.1
    · exact fun w y x => (hrest.2.2.2 w y x).trans (hstep.2.2.2 w y x)

/-- The registration loop preserves the final-reference flags and the master
final-reference index. -/
theorem regLoop_flags (ev : ModelState → Nat → Nat → Nat → Nat → ℚ)
    (fp : DData → ModelState → Nat → Nat → (ℚ × ℚ) × Bool)
    (xi yi : Nat → ℚ) (l : List Nat) :
    ∀ s : RegState,
    (regLoop ev fp xi yi s l).ddt.is_final_ref = s.ddt.is_final_ref ∧
    (regLoop ev fp xi yi s l).ddt.master_final_ref = s.ddt.master_final_ref := by
  induction l with
  | nil => exact fun s => ⟨rfl, rfl⟩
  | cons i l ih =>
    intro s
    have hstep := regEpochStep_flags ev fp xi yi s i
    have hrest := ih (regEpochStep ev fp xi yi s i)
    exact ⟨hrest.1.trans hstep.1, hrest.2.trans hstep.2⟩

/-- Splitting `range (j + 1 + m)` at `j`: the indices before `j`, then `j`,
then indices strictly greater than `j`. -/
theorem range_split_at (j m : Nat) :
    ∃ rest : List Nat, List.range (j + 1 + m) = List.range j ++ j :: rest ∧
      ∀ i ∈ rest, j < i := by
  induction m with
  | zero =>
    refine ⟨[], ?_, by simp⟩
    simp [List.range_succ]
  | succ m ih =>
    obtain ⟨rest, he, hgt⟩ := ih
    refine ⟨rest ++ [j + 1 + m], ?_, ?_⟩
    · have hs : j + 1 + (m + 1) = (j + 1 + m) + 1 := by omega
      rw [hs, List.range_succ, he]
      simp
    · intro i hi
      rcases List.mem_append.mp hi with hi | hi
      · exact hgt i hi
      · have : i = j + 1 + m := by simpa using hi
        omega

/-- The flux entries of the concrete 3 × 7 grid: `0` at spaxel `(0,0)` and
`1` at the other 20 spaxels. -/
theorem sGrid_entries : epochEntries evGrid sGrid 0 =
    [0, 1, 1, 1, 1, 1, 1, 1, 1, 1, 1, 1, 1, 1, 1, 1, 1, 1, 1, 1, 1] := by
  norm_num [epochEntries, epochFlux, evGrid, sGrid, regInit, ddtGrid, modelC,
    DData.ny, DData.nx, DData.nw, List.range_succ]

/-- The median absolute deviation of the concrete grid's flux map is `0`. -/
theorem sGrid_mad : epochMAD evGrid sGrid 0 = 0 := by
  simp only [epochMAD, sGrid_entries]
  norm_num [npmedian, List.insertionSort, List.orderedInsert]

/-- The masking threshold of the concrete grid is `0` (its MAD is `0` and
its minimum is `0`). -/
theorem sGrid_threshold : epochThreshold evGrid sGrid 0 = 0 := by
  simp only [epochThreshold, sGrid_entries, sGrid_mad]
  norm_num [npmin, mask_nmad]

/-- The concrete grid has exactly 20 spaxels above the threshold. -/
theorem sGrid_support : epochSupport evGrid sGrid 0 = 20 := by
  simp only [epochSupport, epochMask, sGrid_threshold]
  norm_num [epochFlux, evGrid, sGrid, regInit, ddtGrid, modelC,
    DData.ny, DData.nx, DData.nw, List.range_succ, List.filter]

/-- C1 (amended): before `fit_position` is invoked, a spaxel's weights are
multiplied by zero (masked) exactly when its summed-over-wavelength model
flux is less than **or equal to** `min(flux) + 2.5 * MAD(flux)` — the code
keeps spaxels with `tmp_m > threshold` (main.py line 179), so a spaxel whose
flux equals the threshold is also masked, contrary to the claim's strict
"below"; spaxels strictly above the threshold keep their weights, and the
weights of every other epoch are untouched. -/
theorem c1_mask_rule_amended (ev : ModelState → Nat → Nat → Nat → Nat → ℚ)
    (s : RegState) (i t w y x : Nat) :
    (epochMask ev s i y x = false ↔
      epochFlux ev s i y x ≤ epochThreshold ev s i) ∧
    ((maskWeight ev s i).weight.val i w y x =
      if epochFlux ev s i y x ≤ epochThreshold ev s i then 0
      else s.ddt.weight.val i w y x) ∧
    (t ≠ i → (maskWeight ev s i).weight.val t w y x = s.ddt.weight.val t w y x) := by
  refine ⟨?_, ?_, ?_⟩
  · simp [epochMask, not_lt]
  · by_cases h : epochFlux ev s i y x ≤ epochThreshold ev s i
    · have hm : epochMask ev s i y x = false := by
        simp [epochMask, not_lt, h]
      simp [maskWeight, hm, h]
    · have hm : epochMask ev s i y x = true := by
        simp [epochMask, lt_of_not_le h]
      simp [maskWeight, hm, h]
  · intro h
    simp [maskWeight, h]

/-- Counterexample to C1 as stated: on the concrete grid, the spaxel `(0,0)`
has flux equal to the threshold (`0 = min + 2.5 * MAD` since the MAD is 0),
hence is **not** below the threshold, yet its weight is set to zero by the
masking step — while 20 spaxels remain above the threshold, so the epoch is
not skipped and `fit_position` is reached with this mask. -/
theorem c1_mask_rule_counterexample :
    (maskWeight evGrid sGrid 0).weight.val 0 0 0 0 = 0 ∧
    sGrid.ddt.weight.val 0 0 0 0 = 1 ∧
    ¬ (epochFlux evGrid sGrid 0 0 0 < epochThreshold evGrid sGrid 0) ∧
    20 ≤ epochSupport evGrid sGrid 0 := by
  have hflux : epochFlux evGrid sGrid 0 0 0 = 0 := by
    norm_num [epochFlux, evGrid, sGrid, regInit, ddtGrid, modelC, DData.nw,
      List.range_succ]
  have hmask : epochMask evGrid sGrid 0 0 0 = false := by
    simp [epochMask, sGrid_threshold, hflux]
  refine ⟨?_, rfl, ?_, ?_⟩
  · simp [maskWeight, hmask]
  · rw [hflux, sGrid_threshold]
    exact lt_irrefl 0
  · rw [sGrid_support]

/-- C2: for a non-master final-reference epoch whose masked support is at
least 20, if the squared Euclidean distance between the position returned by
`fit_position` and the epoch's initial position reaches the squared movement
cap `3.0²` (equivalently, the distance reaches `3.0`), the model offsets for
that epoch are left unchanged and the epoch's `include_in_fit` flag becomes
false; if the distance is below the cap, the offsets are updated to the
returned position and the flag is unchanged (main.py lines 196-205). -/
theorem c2_movement_cap (ev : ModelState → Nat → Nat → Nat → Nat → ℚ)
    (fp : DData → ModelState → Nat → Nat → (ℚ × ℚ) × Bool)
    (xi yi : Nat → ℚ) (s : RegState) (i : Nat)
    (href : s.ddt.is_final_ref i = true)
    (hmaster : ¬ (i : ℤ) = s.ddt.master_final_ref)
    (hsupp : 20 ≤ epochSupport ev s i)
    (px py : ℚ) (cv : Bool)
    (hfp : fp (maskWeight ev s i) s.model i maxiter_fit_position = ((px, py), cv)) :
    (maxmove_fit_position ^ 2 ≤ (px - xi i) ^ 2 + (py - yi i) ^ 2 →
      (regEpochStep ev fp xi yi s i).model.data_xctr i = s.model.data_xctr i ∧
      (regEpochStep ev fp xi yi s i).model.data_yctr i = s.model.data_yctr i ∧
      (regEpochStep ev fp xi yi s i).include_in_fit i = false) ∧
    ((px - xi i) ^ 2 + (py - yi i) ^ 2 < maxmove_fit_position ^ 2 →
      (regEpochStep ev fp xi yi s i).model.data_xctr i = px ∧
      (regEpochStep ev fp xi yi s i).model.data_yctr i = py ∧
      (regEpochStep ev fp xi yi s i).include_in_fit i = s.include_in_fit i) := by
  have hg : ¬ (s.ddt.is_final_ref i = false ∨ (i : ℤ) = s.ddt.master_final_ref) := by
    push_neg
    exact ⟨by simp [href], hmaster⟩
  constructor
  · intro hd
    have hd2 : ¬ ((px - xi i) ^ 2 + (py - yi i) ^ 2 < maxmove_fit_position ^ 2) :=
      not_lt.mpr hd
    simp only [regEpochStep, if_neg hg, if_neg (Nat.not_lt.mpr hsupp), hfp, hd2,
      if_false, ite_false]
    simp [Function.update_same]
  · intro hd
    simp only [regEpochStep, if_neg hg, if_neg (Nat.not_lt.mpr hsupp), hfp, hd,
      if_true, ite_true]
    simp [Function.update_same]

/-- Witness for C2 on the concrete grid: a returned position at distance 10
from the initial origin is rejected (offsets unchanged, epoch excluded), and
a returned position at distance 0 is accepted (offsets updated, epoch kept). -/
theorem c2_movement_cap_witness :
    ((regEpochStep evGrid fpFar zeroQ zeroQ sGrid 0).model.data_xctr 0 =
        sGrid.model.data_xctr 0 ∧
      (regEpochStep evGrid fpFar zeroQ zeroQ sGrid 0).model.data_yctr 0 =
        sGrid.model.data_yctr 0 ∧
      (regEpochStep evGrid fpFar zeroQ zeroQ sGrid 0).include_in_fit 0 = false) ∧
    ((regEpochStep evGrid fpZero zeroQ zeroQ sGrid 0).model.data_xctr 0 = 0 ∧
      (regEpochStep evGrid fpZero zeroQ zeroQ sGrid 0).model.data_yctr 0 = 0 ∧
      (regEpochStep evGrid fpZero zeroQ zeroQ sGrid 0).include_in_fit 0 =
        sGrid.include_in_fit 0) := by
  constructor
  · refine (c2_movement_cap evGrid fpFar zeroQ zeroQ sGrid 0 rfl (by decide)
      (by rw [sGrid_support]) 10 0 true rfl).1 ?_
    norm_num [maxmove_fit_position, zeroQ]
  · refine (c2_movement_cap evGrid fpZero zeroQ zeroQ sGrid 0 rfl (by decide)
      (by rw [sGrid_support]) 0 0 true rfl).2 ?_
    norm_num [maxmove_fit_position, zeroQ]

/-- C4: the in-place masking of the weights during the registration stage is
scoped and reversible — after the stage completes, `ddtdata.weight` equals
its pre-stage value on every run (the snapshot of main.py line 154 is
restored at line 208, whatever branches the loop took), and the weights of
epoch `j` are still untouched when epoch `j`'s own iteration starts, so the
masking applied while registering one epoch never affects the weights used
when fitting any other epoch. -/
theorem c4_weight_restoration (ev : ModelState → Nat → Nat → Nat → Nat → ℚ)
    (fp : DData → ModelState → Nat → Nat → (ℚ × ℚ) × Bool)
    (xi yi : Nat → ℚ) (ddt0 : DData) (model0 : ModelState) :
    (regStage ev fp xi yi ddt0 model0).ddt.weight = ddt0.weight ∧
    ∀ j w y x, (regBefore ev fp xi yi ddt0 model0 j).ddt.weight.val j w y x =
      ddt0.weight.val j w y x := by
  constructor
  · rfl
  · intro j w y x
    have hj : j ∉ List.range j := by simp
    exact (regLoop_other ev fp xi yi j (List.range j) hj (regInit ddt0 model0)).2.2.2 w y x

/-- C6: the registration loop only ever writes the offsets of non-master
final-reference epochs — for every epoch that is not a final reference or is
the master final reference, `model.data_xctr` and `model.data_yctr` keep the
values they had when the stage started (main.py lines 163-166, 201-205). -/
theorem c6_only_nonmaster_final_refs (ev : ModelState → Nat → Nat → Nat → Nat → ℚ)
    (fp : DData → ModelState → Nat → Nat → (ℚ × ℚ) × Bool)
    (xi yi : Nat → ℚ) (ddt0 : DData) (model0 : ModelState) (j : Nat)
    (h : ddt0.is_final_ref j = false ∨ (j : ℤ) = ddt0.master_final_ref) :
    (regStage ev fp xi yi ddt0 model0).model.data_xctr j = model0.data_xctr j ∧
    (regStage ev fp xi yi ddt0 model0).model.data_yctr j = model0.data_yctr j := by
  have key : ∀ (l : List Nat) (s : RegState),
      (s.ddt.is_final_ref j = false ∨ (j : ℤ) = s.ddt.master_final_ref) →
      (regLoop ev fp xi yi s l).model.data_xctr j = s.model.data_xctr j ∧
      (regLoop ev fp xi yi s l).model.data_yctr j = s.model.data_yctr j := by
    intro l
    induction l with
    | nil => exact fun s _ => ⟨rfl, rfl⟩
    | cons i l ih =>
      intro s hs
      by_cases hij : i = j
      · subst hij
        have hskip : regEpochStep ev fp xi yi s i = s :=
          regEpochStep_skip_guard ev fp xi yi s i hs
        have : regLoop ev fp xi yi s (i :: l) = regLoop ev fp xi yi s l := by
          simp only [regLoop, List.foldl_cons, hskip]
        rw [this]
        exact ih s hs
      · have hflags := regEpochStep_flags ev fp xi yi s i
        have hs2 : (regEpochStep ev fp xi yi s i).ddt.is_final_ref j = false ∨
            (j : ℤ) = (regEpochStep ev fp xi yi s i).ddt.master_final_ref := by
          rcases hs with hs | hs
          · exact Or.inl (by rw [hflags.1, hs])
          · exact Or.inr (by rw [hflags.2, hs])
        have hrest := ih (regEpochStep ev fp xi yi s i) hs2
        have hstep := regEpochStep_other ev fp xi yi s i j (fun he => hij he.symm)
        exact ⟨hrest.1.trans hstep.1, hrest.2.trans hstep.2.1⟩
  exact key (List.range ddt0.nt) (regInit ddt0 model0) h

/-- Witness for C6: on a concrete store whose only epoch is the master final
reference, the stage leaves the offsets at their initial zero values. -/
theorem c6_only_nonmaster_final_refs_witness :
    (regStage evGrid fpFar zeroQ zeroQ ddtMaster modelC).model.data_xctr 0 =
      modelC.data_xctr 0 ∧
    (regStage evGrid fpFar zeroQ zeroQ ddtMaster modelC).model.data_yctr 0 =
      modelC.data_yctr 0 :=
  c6_only_nonmaster_final_refs evGrid fpFar zeroQ zeroQ ddtMaster modelC 0
    (Or.inr (by decide))

/-- C3: a non-master final-reference epoch whose post-masking support has
fewer than 20 unmasked spaxels is skipped: its loop iteration returns the
state unchanged whatever `fit_position` collaborator is plugged in (so
`fit_position` is not invoked), and after the whole stage the epoch's model
offsets keep their initial values while `include_in_fit` stays true — the
epoch is not recorded as a failure (main.py lines 179-184). -/
theorem c3_skip_insufficient_support (ev : ModelState → Nat → Nat → Nat → Nat → ℚ)
    (fp : DData → ModelState → Nat → Nat → (ℚ × ℚ) × Bool)
    (xi yi : Nat → ℚ) (ddt0 : DData) (model0 : ModelState) (j : Nat)
    (hj : j < ddt0.nt)
    (href : ddt0.is_final_ref j = true)
    (hmaster : ¬ (j : ℤ) = ddt0.master_final_ref)
    (hsupp : epochSupport ev (regBefore ev fp xi yi ddt0 model0 j) j < 20) :
    (∀ fp2, regEpochStep ev fp2 xi yi (regBefore ev fp xi yi ddt0 model0 j) j =
      regBefore ev fp xi yi ddt0 model0 j) ∧
    (regStage ev fp xi yi ddt0 model0).model.data_xctr j = model0.data_xctr j ∧
    (regStage ev fp xi yi ddt0 model0).model.data_yctr j = model0.data_yctr j ∧
    (regStage ev fp xi yi ddt0 model0).include_in_fit j = true := by
  have hnotin : j ∉ List.range j := by simp
  have hflags := regLoop_flags ev fp xi yi (List.range j) (regInit ddt0 model0)
  have hguard : ¬ ((regBefore ev fp xi yi ddt0 model0 j).ddt.is_final_ref j = false ∨
      (j : ℤ) = (regBefore ev fp xi yi ddt0 model0 j).ddt.master_final_ref) := by
    rw [regBefore, hflags.1, hflags.2]
    push_neg
    exact ⟨by simp [regInit, href], by simpa [regInit] using hmaster⟩
  have hskip : ∀ fp2, regEpochStep ev fp2 xi yi (regBefore ev fp xi yi ddt0 model0 j) j =
      regBefore ev fp xi yi ddt0 model0 j :=
    fun fp2 => regEpochStep_skip_support ev fp2 xi yi _ j hguard hsupp
  have hbefore := regLoop_other ev fp xi yi j (List.range j) hnotin (regInit ddt0 model0)
  obtain ⟨rest, hre, hgt⟩ := range_split_at j (ddt0.nt - j - 1)
  have hnt : j + 1 + (ddt0.nt - j - 1) = ddt0.nt := by omega
  have hrange : List.range ddt0.nt = List.range j ++ j :: rest := by
    rw [← hnt]
    exact hre
  have hrest_notin : j ∉ rest := fun hm => lt_irrefl j (hgt j hm)
  have hafter := regLoop_other ev fp xi yi j rest hrest_notin
    (regBefore ev fp xi yi ddt0 model0 j)
  have hloop : regLoop ev fp xi yi (regInit ddt0 model0) (List.range ddt0.nt) =
      regLoop ev fp xi yi (regBefore ev fp xi yi ddt0 model0 j) rest := by
    rw [hrange]
    simp only [regLoop, List.foldl_append, List.foldl_cons]
    rw [show List.foldl (regEpochStep ev fp xi yi) (regInit ddt0 model0) (List.range j) =
      regBefore ev fp xi yi ddt0 model0 j from rfl, hskip fp]
  refine ⟨hskip, ?_, ?_, ?_⟩
  · show (regLoop ev fp xi yi (regInit ddt0 model0) (List.range ddt0.nt)).model.data_xctr j =
      model0.data_xctr j
    rw [hloop]
    exact (hafter.1).trans hbefore.1
  · show (regLoop ev fp xi yi (regInit ddt0 model0) (List.range ddt0.nt)).model.data_yctr j =
      model0.data_yctr j
    rw [hloop]
    exact (hafter.2.1).trans hbefore.2.1
  · show (regLoop ev fp xi yi (regInit ddt0 model0) (List.range ddt0.nt)).include_in_fit j =
      true
    rw [hloop]
    exact (hafter.2.2.1).trans hbefore.2.2.1

/-- On the concrete 1 × 1 store the single spaxel is never above the
threshold, so the masked support is 0. -/
theorem sTiny_support : epochSupport evOne (regInit ddtTiny modelC) 0 = 0 := by
  norm_num [epochSupport, epochMask, epochThreshold, epochMAD, epochEntries,
    epochFlux, npmedian, npmin, mask_nmad, evOne, regInit, ddtTiny, modelC,
    DData.ny, DData.nx, DData.nw, List.range_succ, List.insertionSort,
    List.orderedInsert, List.filter]

/-- Witness for C3 on the concrete 1 × 1 store, whose single non-master
final-reference epoch has support 0 < 20. -/
theorem c3_skip_insufficient_support_witness :
    regEpochStep evOne fpZero zeroQ zeroQ
        (regBefore evOne fpZero zeroQ zeroQ ddtTiny modelC 0) 0 =
      regBefore evOne fpZero zeroQ zeroQ ddtTiny modelC 0 ∧
    (regStage evOne fpZero zeroQ zeroQ ddtTiny modelC).model.data_xctr 0 =
      modelC.data_xctr 0 ∧
    (regStage evOne fpZero zeroQ zeroQ ddtTiny modelC).model.data_yctr 0 =
      modelC.data_yctr 0 ∧
    (regStage evOne fpZero zeroQ zeroQ ddtTiny modelC).include_in_fit 0 = true := by
  have hb : regBefore evOne fpZero zeroQ zeroQ ddtTiny modelC 0 =
      regInit ddtTiny modelC := rfl
  have h := c3_skip_insufficient_support evOne fpZero zeroQ zeroQ ddtTiny modelC 0
    (by decide) rfl (by decide) (by rw [hb, sTiny_support]; norm_num)
  exact ⟨h.1 fpZero, h.2.1, h.2.2.1, h.2.2.2⟩

/-- Witness for the amended C1 on the concrete grid: the mask equivalence at
spaxel `(0,1)` and the untouched weight of another epoch index. -/
theorem c1_mask_rule_amended_witness :
    (epochMask evGrid sGrid 0 0 1 = false ↔
      epochFlux evGrid sGrid 0 0 1 ≤ epochThreshold evGrid sGrid 0) ∧
    (maskWeight evGrid sGrid 0).weight.val 1 0 0 1 = sGrid.ddt.weight.val 1 0 0 1 :=
  ⟨(c1_mask_rule_amended evGrid sGrid 0 1 0 0 1).1,
   (c1_mask_rule_amended evGrid sGrid 0 1 0 0 1).2.2 (by decide)⟩
